import Mathlib

/-!
Verification of the cache / fetch / session-tracking
subsystem, shallowly embedded from the Python sources:

* `utils.py`, `beban_tracker.py` — Steam64 / account-id conversions.
* `cache_manager.py` — `load_cache`, `fetch_data`, `rate_limit_check`,
  `cache_player_data`.
* `track_dota.py` — `load_playtime_data`, `fetch_player_summaries`,
  `track_dota_playtime`, `send_daily_report`.
* `match_tracker.py` / `commands.py` — `save_match_data`,
  `get_last_match_data`.

Python `dict`s are modelled as association lists without duplicate keys,
machine integers as `Int` (Python ints are arbitrary precision), timestamps
as `Int` seconds, and fallible operations as `Except` / `Option`.
-/

namespace Dota

/-! ## Steam id conversions

`utils.py` line 52-54 and `beban_tracker.py` line 20-21. Both operate on
Python `int`s, embedded as `Int`. -/

/-- Embeds `utils.steam_id_to_account_id`: `int(steam_id) - 76561197960265728`. -/
def steam_id_to_account_id (steam_id : Int) : Int :=
  steam_id - 76561197960265728

/-- Embeds `beban_tracker.account_id_to_steam_id`: `76561197960265728 + account_id`. -/
def account_id_to_steam_id (account_id : Int) : Int :=
  76561197960265728 + account_id

/-! ## Python dict model

A Python `dict` is a finite map; we embed it as an association list whose
keys are distinct (`dict` keys are unique). `dictInsert` is item assignment
`d[k] = v`, `dictGet` is `d.get(k)`, and `dictUpdate r p` is `r.update(p)`:
every key of `p` is assigned into `r` in order. -/

def dictGet {V : Type} (k : String) : List (String × V) → Option V
  | [] => none
  | (k', v) :: rest => if k' = k then some v else dictGet k rest

def dictInsert {V : Type} (k : String) (v : V) : List (String × V) → List (String × V)
  | [] => [(k, v)]
  | (k', v') :: rest => if k' = k then (k, v) :: rest else (k', v') :: dictInsert k v rest

def dictUpdate {V : Type} (r p : List (String × V)) : List (String × V) :=
  p.foldl (fun acc kv => dictInsert kv.1 kv.2 acc) r

def dictKeys {V : Type} (d : List (String × V)) : List String :=
  d.map Prod.fst

theorem dictGet_dictInsert {V : Type} (k k' : String) (v : V) (d : List (String × V)) :
    dictGet k (dictInsert k' v d) = if k' = k then some v else dictGet k d := by
  induction d with
  | nil => simp [dictInsert, dictGet]
  | cons hd tl ih =>
    obtain ⟨k0, v0⟩ := hd
    simp only [dictInsert]
    by_cases h1 : k0 = k'
    · subst h1
      by_cases h2 : k0 = k <;> simp [dictGet, h2]
    · simp only [if_neg h1, dictGet]
      by_cases h3 : k0 = k
      · have hne : ¬k' = k := fun h => h1 (h3.trans h.symm)
        simp [h3, hne]
      · simp [h3, ih]

theorem dictGet_eq_none_of_not_mem {V : Type} (k : String) (d : List (String × V))
    (h : k ∉ dictKeys d) : dictGet k d = none := by
  induction d with
  | nil => rfl
  | cons hd tl ih =>
    obtain ⟨k0, v0⟩ := hd
    have h1 : ¬(k = k0 ∨ k ∈ dictKeys tl) := by
      simpa [dictKeys, List.mem_cons] using h
    push_neg at h1
    have hne : ¬k0 = k := fun hh => h1.1 hh.symm
    simp [dictGet, hne, ih h1.2]

/-- Lookup characterisation of `dict.update`: for `p` with distinct keys,
looking up `k` in `r.update(p)` yields the value of `p` when `k ∈ p`, else
the value of `r`. -/
theorem dictGet_dictUpdate {V : Type} (r p : List (String × V)) (k : String)
    (hnd : (dictKeys p).Nodup) :
    dictGet k (dictUpdate r p) =
      match dictGet k p with
      | some v => some v
      | none => dictGet k r := by
  induction p generalizing r with
  | nil => simp [dictUpdate, dictGet]
  | cons hd tl ih =>
    obtain ⟨k0, v0⟩ := hd
    have hcons : dictKeys ((k0, v0) :: tl) = k0 :: dictKeys tl := rfl
    rw [hcons] at hnd
    have hnd' : (dictKeys tl).Nodup := hnd.of_cons
    have hni : k0 ∉ dictKeys tl := (List.nodup_cons.mp hnd).1
    have step : dictUpdate r ((k0, v0) :: tl) = dictUpdate (dictInsert k0 v0 r) tl := rfl
    rw [step, ih _ hnd']
    by_cases hk : k0 = k
    · rw [dictGet_eq_none_of_not_mem k tl (hk ▸ hni)]
      simp [dictGet, dictGet_dictInsert, hk]
    · simp [dictGet, hk, dictGet_dictInsert]

/-! ## `cache_manager.cache_player_data` (lines 114-132)

```python
player_data = load_cache(player_file)
profile_data = await fetch_data(session, f".../players/{account_id}")
wl_data = await fetch_data(session, f".../players/{account_id}/wl")
if profile_data:
    player_data.update(profile_data)
if wl_data:
    player_data["win_loss"] = wl_data
save_cache(player_file, player_data)
```

A failed fetch returns `None`, embedded as `Option.none`. (Python also
treats an *empty* successful response as falsy and skips the merge; merging
an empty dict is the identity, and an empty `wl` payload is not returned by
the endpoint, so `Option` captures the branch.) The value type `V` stands
for arbitrary nested JSON values. -/

def cache_player_data {V : Type} (player_data : List (String × V))
    (profile_data : Option (List (String × V))) (wl_data : Option V) :
    List (String × V) :=
  let pd := match profile_data with
    | some p => dictUpdate player_data p
    | none => player_data
  match wl_data with
  | some w => dictInsert "win_loss" w pd
  | none => pd

/-! ## Cache-store loaders

`cache_manager.load_cache` (lines 35-43):

```python
if file_path.exists():
    try:
        with open(file_path, "r") as f:
            return json.load(f)
    except (json.JSONDecodeError, OSError):
        log(...)
return {}
```

`track_dota.load_playtime_data` (lines 32-37):

```python
if os.path.exists(file_path):
    with open(file_path, "r") as file:
        return json.load(file)
return {"sessions": [], "total": 0}
```

The on-disk state of one file is one of: absent, present but unreadable
(`open`/read raises `OSError`), present but not valid JSON (`json.load`
raises `JSONDecodeError`), or present and valid with parsed content `v`. -/

inductive FileState (α : Type) where
  | missing
  | unreadable
  | corrupt
  | valid (v : α)
deriving DecidableEq, Repr

/-- Exceptions a loader can raise to its caller. -/
inductive PyErr where
  | osError
  | jsonDecodeError
deriving DecidableEq, Repr

/-- Embeds `load_cache`: both exception classes are caught and an empty dict is
returned; the result type is `Except` to witness that no exception escapes. -/
def load_cache {α : Type} (empty : α) : FileState α → Except PyErr α
  | .missing => .ok empty
  | .unreadable => .ok empty
  | .corrupt => .ok empty
  | .valid v => .ok v

/-- One entry of the `"sessions"` list in a playtime file. `stop` models the
`"end"` key (absent while the session is open); `dur` models the
`"duration"` key, stored by the tracker as an `(hours, minutes, seconds)`
breakdown (the code formats it as the string `f"{h}h {m}m {s}s"`). -/
structure SessionRec where
  start : Int
  stop : Option Int
  dur : Option (Int × Int × Int)
deriving DecidableEq, Repr

/-- Parsed content of a playtime file: `{"sessions": [...], "total": t}`.
`total` is the incrementally maintained hour counter (a float in Python,
embedded as `ℚ`). -/
structure PlaytimeRecord where
  sessions : List SessionRec
  total : ℚ
deriving DecidableEq, Repr

/-- Embeds `load_playtime_data`: only the `missing` branch is guarded
(`os.path.exists`); `open` and `json.load` run with no `try`, so an
unreadable or corrupt existing file raises to the caller. -/
def load_playtime_data : FileState PlaytimeRecord → Except PyErr PlaytimeRecord
  | .missing => .ok { sessions := [], total := 0 }
  | .unreadable => .error .osError
  | .corrupt => .error .jsonDecodeError
  | .valid v => .ok v

/-! ## `cache_manager.fetch_data` (lines 73-91)

```python
for attempt in range(retries):
    try:
        async with session.get(url) as response:
            if response.status == 200:
                return await response.json()
            elif response.status == 429:
                retry_after = int(response.headers.get("Retry-After", 10))
                await asyncio.sleep(retry_after)
            else:
                log(...)
    except aiohttp.ClientError as e:
        log(...)
    await asyncio.sleep(2 ** attempt)
return None
```

The response to each attempt is given by `resp : Nat → HttpResp α`
(attempt number ↦ what the server / transport did). The embedding records
the returned value, the sequence of `asyncio.sleep` durations in order, and
the number of attempts made. Note that the `await asyncio.sleep(2 **
attempt)` on the last line runs on *every* path that does not `return`,
including the 429 path, after the `retry_after` sleep. -/

inductive HttpResp (α : Type) where
  | ok (payload : α)
  | throttled (retryAfter : Option Nat)
  | failStatus (status : Nat)
  | netError
deriving DecidableEq, Repr

/-- Embeds `int(response.headers.get("Retry-After", 10))`. -/
def retry_after_value : Option Nat → Nat
  | some n => n
  | none => 10

structure FetchOutcome (α : Type) where
  result : Option α
  sleeps : List Nat
  attempts : Nat
deriving DecidableEq, Repr

def fetch_data_go {α : Type} (resp : Nat → HttpResp α) (attempt : Nat) :
    Nat → FetchOutcome α
  | 0 => ⟨none, [], 0⟩
  | remaining + 1 =>
    match resp attempt with
    | .ok p => ⟨some p, [], 1⟩
    | .throttled ra =>
      let rest := fetch_data_go resp (attempt + 1) remaining
      ⟨rest.result, retry_after_value ra :: 2 ^ attempt :: rest.sleeps, rest.attempts + 1⟩
    | .failStatus _ =>
      let rest := fetch_data_go resp (attempt + 1) remaining
      ⟨rest.result, 2 ^ attempt :: rest.sleeps, rest.attempts + 1⟩
    | .netError =>
      let rest := fetch_data_go resp (attempt + 1) remaining
      ⟨rest.result, 2 ^ attempt :: rest.sleeps, rest.attempts + 1⟩

/-- Embeds `fetch_data`; the call sites use the default `retries=3`. -/
def fetch_data {α : Type} (resp : Nat → HttpResp α) (retries : Nat) : FetchOutcome α :=
  fetch_data_go resp 0 retries

/-- Response schedule of the throttling scenario: first call yields 429
(with the given `Retry-After` header), every later call yields 200 with
payload `p`. -/
def throttle_then_ok {α : Type} (ra : Option Nat) (p : α) : Nat → HttpResp α :=
  fun n => if n = 0 then HttpResp.throttled ra else HttpResp.ok p

/-! ## `track_dota.fetch_player_summaries` (lines 45-71)

```python
backoff = 5
while True:
    try:
        ... session.get(url, timeout=10) ...
        if response.status == 429:
            await asyncio.sleep(backoff)
            backoff = min(backoff * 2, 60)
            continue
        if response.status != 200:
            return []
        return data...players
    except Exception:
        return []
```

The `while True` has no attempt bound: the 429 branch `continue`s forever.
The embedding is fuel-indexed: `result = none` means the loop is still
running after `fuel` attempts (it has not returned anything). -/

inductive SteamResp (V : Type) where
  | ok (players : List V)
  | throttled
  | errStatus (status : Nat)
  | exn
deriving DecidableEq, Repr

def fetch_player_summaries_go {V : Type} (resp : Nat → SteamResp V)
    (k backoff : Nat) : Nat → Option (List V) × List Nat
  | 0 => (none, [])
  | fuel + 1 =>
    match resp k with
    | .ok ps => (some ps, [])
    | .errStatus _ => (some [], [])
    | .exn => (some [], [])
    | .throttled =>
      let rest := fetch_player_summaries_go resp (k + 1) (min (backoff * 2) 60) fuel
      (rest.1, backoff :: rest.2)

def fetch_player_summaries {V : Type} (resp : Nat → SteamResp V) (fuel : Nat) :
    Option (List V) × List Nat :=
  fetch_player_summaries_go resp 0 5 fuel

/-! ## Rate limiter (`cache_manager.py` lines 29-33, 53-79)

`request_queue = Queue()` is an `asyncio.Queue` constructed with no
`maxsize`, i.e. unbounded: `await q.put(x)` appends the item and resumes
the caller immediately — it can only suspend when the queue is full, which
an unbounded queue never is. `rate_limit_check` consumes items from the
queue at its own cadence, but consuming imposes no wait on the producer. -/

def RATE_LIMIT : Nat := 60

structure AsyncQueue where
  items : List Nat
deriving DecidableEq, Repr

/-- Embeds `await request_queue.put(x)` on the unbounded queue: returns the new
queue and the wait (in seconds) the call imposed on the caller — zero. -/
def AsyncQueue.put (q : AsyncQueue) (x : Nat) : AsyncQueue × Nat :=
  ({ items := q.items ++ [x] }, 0)

/-- The pre-request path of `fetch_data` (lines 75-79): `await
request_queue.put(1)` and then straight into the retry loop, whose first
statement issues `session.get(url)`. No other await separates the start
of a call from its first HTTP request, so a call started at `t` issues its
first request at `t` plus the wait imposed by `put`. -/
def fetch_data_first_request_time (q : AsyncQueue) (t : Nat) : AsyncQueue × Nat :=
  let qw := q.put 1
  (qw.1, t + qw.2)

/-- All `n` fetch calls started at time `t0` (as `update_cache` does via
`asyncio.gather`), threading the shared `request_queue` through the calls;
yields the times at which their first HTTP requests go out. -/
def concurrent_first_request_times (n t0 : Nat) : List Nat :=
  ((List.range n).foldl
    (fun acc _ =>
      let qt := fetch_data_first_request_time acc.1 t0
      (qt.1, acc.2 ++ [qt.2]))
    ((⟨[]⟩ : AsyncQueue), ([] : List Nat))).2

/-- Number of requests issued inside the half-open window `[w0, w1)`. -/
def requests_in_window (times : List Nat) (w0 w1 : Nat) : Nat :=
  (times.filter (fun t => decide (w0 ≤ t ∧ t < w1))).length

/-! ## Match-file store (`match_tracker.save_match_data`,
`commands.get_last_match_data`)

One directory of per-match-id JSON files (`cache/steam/` for
`save_match_data`, `cache/matches/` for `get_last_match_data`), embedded
as a list of `(match_id, content)` files in creation order. -/

abbrev MatchStore (α : Type) := List (Nat × α)

def match_file_lookup {α : Type} (store : MatchStore α) (id : Nat) : Option α :=
  match store with
  | [] => none
  | e :: rest => if e.1 = id then some e.2 else match_file_lookup rest id

/-- Embeds `os.path.exists(file_path)` for the file of a match id. -/
def file_exists {α : Type} (store : MatchStore α) (id : Nat) : Bool :=
  (match_file_lookup store id).isSome

/-- Embeds `match_tracker.save_match_data` (lines 31-51): for each match of the
response (every modelled match carries its id), skip the write when the
file already exists, else write the file; the second component counts the
writes performed. -/
def save_match_data_go {α : Type} (store : MatchStore α) (writes : Nat) :
    List (Nat × α) → MatchStore α × Nat
  | [] => (store, writes)
  | m :: rest =>
    if file_exists store m.1 then save_match_data_go store writes rest
    else save_match_data_go (store ++ [m]) (writes + 1) rest

def save_match_data {α : Type} (store : MatchStore α) (ms : List (Nat × α)) :
    MatchStore α × Nat :=
  save_match_data_go store 0 ms

/-- Embeds `commands.get_last_match_data` (lines 93-114), given the latest match
id (taken from the newest `cache/steam/` filename): if the match-data file
exists, read and return it with no fetch; otherwise fetch it from OpenDota
(`network id = none` models a non-200 response, which is reported without
caching anything) and save it on success. Returns the updated store, the
outcome, and the number of match-detail fetches issued. -/
def get_last_match_data {α : Type} (store : MatchStore α) (match_id : Nat)
    (network : Nat → Option α) : MatchStore α × Option α × Nat :=
  match match_file_lookup store match_id with
  | some d => (store, some d, 0)
  | none =>
    match network match_id with
    | some d => (store ++ [(match_id, d)], some d, 1)
    | none => (store, none, 1)

/-! ## Session tracker (`track_dota.track_dota_playtime`, lines 73-126)

Per-player state: `active` is `active_players.get(steam_id)` — the
in-memory start time recorded when a session was opened (the dict starts
empty at process start) — and `record` the content of the playtime file
of the player, reloaded and saved around each mutation (single writer, so
threading it as state is equivalent). A poll observes `game =
player.get("gameextrainfo", None)` at time `now`. Timestamps are
whole-second `Int`s, so `total_seconds()` is exact; poll times increase,
so durations are non-negative and the Python floor divisions agree with
`Int` division. -/

structure TrackState where
  active : Option Int
  record : PlaytimeRecord
deriving DecidableEq, Repr

/-- State at a first-ever observation: `active_players` has no entry, the
playtime file is absent so `load_playtime_data` yields the empty record. -/
def initial_track_state : TrackState :=
  { active := none, record := { sessions := [], total := 0 } }

/-- Embeds `round(play_duration_seconds / 3600, 2)` added to `"total"`. The Python
value is a float rounded to two decimals; no verified claim reads this
field (`send_daily_report` recomputes totals from the sessions), so the
embedding keeps the exact rational hours value. -/
def play_duration_hours (dsec : Int) : ℚ := (dsec : ℚ) / 3600

/-- The `hours/minutes/seconds` breakdown stored under the `"duration"` key
(lines 109-113); the code renders it as the string `f"{h}h {m}m {s}s"`. -/
def duration_breakdown (dsec : Int) : Int × Int × Int :=
  (dsec / 3600, (dsec % 3600) / 60, dsec % 60)

/-- Embeds `last_session = playtime_data["sessions"][-1]; last_session["end"] =
...; last_session["duration"] = ...` (on an empty list `[-1]` would raise;
the closing branch is only reached with `active` set, in which state the
opening branch has appended a session). -/
def set_last_session (sessions : List SessionRec) (now : Int) (d : Int × Int × Int) :
    List SessionRec :=
  match sessions.getLast? with
  | none => sessions
  | some last => sessions.dropLast ++ [{ last with stop := some now, dur := some d }]

/-- One iteration of the per-player loop body (lines 85-124). -/
def track_step (st : TrackState) (game : Option String) (now : Int) : TrackState :=
  let pd := st.record
  if game = some "Dota 2" then
    match st.active with
    | some _ => st
    | none =>
      { active := some now,
        record := { pd with
          sessions := pd.sessions ++ [{ start := now, stop := none, dur := none }] } }
  else
    match st.active with
    | none => st
    | some start_time =>
      let dsec := now - start_time
      { active := none,
        record := { sessions := set_last_session pd.sessions now (duration_breakdown dsec),
                    total := pd.total + play_duration_hours dsec } }

/-- A sequence of polls `(gameextrainfo, time)` for one player, applied
from the first-ever observation. -/
def run_tracker (polls : List (Option String × Int)) : TrackState :=
  polls.foldl (fun st p => track_step st p.1 p.2) initial_track_state

def closed_sessions (r : PlaytimeRecord) : List SessionRec :=
  r.sessions.filter (fun s => s.stop.isSome)

/-! ## Daily report (`track_dota.send_daily_report`, lines 128-151)

```python
cutoff_date = now - timedelta(days=30)
playtime_data["sessions"] = [s for s in sessions if fromisoformat(s["start"]) >= cutoff_date]
total_playtime_seconds = sum(
    (fromisoformat(s["end"]) - fromisoformat(s["start"])).total_seconds()
    for s in playtime_data["sessions"] if "end" in s)
```
-/

def thirty_days : Int := 30 * 86400

/-- The retention filter: sessions whose `start` is at or after the cutoff. -/
def report_sessions (record : PlaytimeRecord) (cutoff : Int) : List SessionRec :=
  record.sessions.filter (fun s => decide (cutoff ≤ s.start))

/-- The reported per-player total in seconds, recomputed at report time. -/
def report_total_seconds (record : PlaytimeRecord) (now : Int) : Int :=
  ((report_sessions record (now - thirty_days)).filterMap
    (fun s => s.stop.map (fun e => e - s.start))).sum

/-- The description given by the spec of the reporting total: the sum of the
durations of the closed sessions whose start lies within the trailing
30-day retention window. -/
def closed_window_duration_sum (sessions : List SessionRec) (now : Int) : Int :=
  match sessions with
  | [] => 0
  | s :: rest =>
    (match s.stop with
     | some e => if now - thirty_days ≤ s.start then e - s.start else 0
     | none => 0) + closed_window_duration_sum rest now

/-! ## Helper lemmas -/

theorem match_file_lookup_append {α : Type} (s t : MatchStore α) (id : Nat) :
    match_file_lookup (s ++ t) id =
      match match_file_lookup s id with
      | some d => some d
      | none => match_file_lookup t id := by
  induction s with
  | nil => simp [match_file_lookup]
  | cons e rest ih =>
    by_cases h : e.1 = id <;> simp [match_file_lookup, h, ih]

theorem file_exists_append {α : Type} (s t : MatchStore α) (id : Nat)
    (h : file_exists s id = true) : file_exists (s ++ t) id = true := by
  unfold file_exists at h ⊢
  rw [match_file_lookup_append]
  cases hl : match_file_lookup s id with
  | none => rw [hl] at h; simp at h
  | some d => simp

theorem save_match_data_go_preserves_exists {α : Type} (ms : List (Nat × α)) :
    ∀ store writes id, file_exists store id = true →
      file_exists (save_match_data_go store writes ms).1 id = true := by
  induction ms with
  | nil => intro store writes id h; simpa [save_match_data_go] using h
  | cons m rest ih =>
    intro store writes id h
    cases hm : file_exists store m.1 with
    | true => simp only [save_match_data_go, hm, if_pos]; exact ih _ _ _ h
    | false =>
      simp only [save_match_data_go, hm, Bool.false_eq_true, if_neg, not_false_iff]
      exact ih _ _ _ (file_exists_append _ _ _ h)

theorem save_match_data_go_exists_of_mem {α : Type} (ms : List (Nat × α)) :
    ∀ store writes id, id ∈ ms.map Prod.fst →
      file_exists (save_match_data_go store writes ms).1 id = true := by
  induction ms with
  | nil => intro store writes id h; simp at h
  | cons m rest ih =>
    intro store writes id h
    rw [List.map_cons] at h
    rcases List.mem_cons.mp h with h1 | h1
    · cases hm : file_exists store m.1 with
      | true =>
        simp only [save_match_data_go, hm, if_pos]
        exact save_match_data_go_preserves_exists rest _ _ _ (by rw [h1]; exact hm)
      | false =>
        simp only [save_match_data_go, hm, Bool.false_eq_true, if_neg, not_false_iff]
        refine save_match_data_go_preserves_exists rest _ _ _ ?_
        unfold file_exists
        rw [match_file_lookup_append]
        have hnone : match_file_lookup store m.1 = none := by
          unfold file_exists at hm
          cases hl : match_file_lookup store m.1 with
          | none => rfl
          | some d => rw [hl] at hm; simp at hm
        rw [h1, hnone]
        simp [match_file_lookup]
    · cases hm : file_exists store m.1 with
      | true =>
        simp only [save_match_data_go, hm, if_pos]
        exact ih _ _ _ h1
      | false =>
        simp only [save_match_data_go, hm, Bool.false_eq_true, if_neg, not_false_iff]
        exact ih _ _ _ h1

theorem save_match_data_go_count_of_exists {α : Type} (ms : List (Nat × α)) :
    ∀ store writes id, file_exists store id = true →
      List.countP (fun e => decide (e.1 = id)) (save_match_data_go store writes ms).1 =
        List.countP (fun e => decide (e.1 = id)) store := by
  induction ms with
  | nil => intro store writes id h; simp [save_match_data_go]
  | cons m rest ih =>
    intro store writes id h
    cases hm : file_exists store m.1 with
    | true => simp only [save_match_data_go, hm, if_pos]; exact ih _ _ _ h
    | false =>
      have hne : ¬(m.1 = id) := by
        intro he; rw [he, h] at hm; exact Bool.noConfusion hm
      simp only [save_match_data_go, hm, Bool.false_eq_true, if_neg, not_false_iff]
      rw [ih _ _ _ (file_exists_append _ _ _ h), List.countP_append]
      simp [List.countP_cons, hne]

theorem match_file_lookup_append_single_none {α : Type} (store : MatchStore α)
    (id : Nat) (d : α) (h : match_file_lookup store id = none) :
    match_file_lookup (store ++ [(id, d)]) id = some d := by
  rw [match_file_lookup_append, h]
  simp [match_file_lookup]

theorem fetch_data_go_attempts_le {α : Type} (resp : Nat → HttpResp α) :
    ∀ remaining attempt, (fetch_data_go resp attempt remaining).attempts ≤ remaining := by
  intro remaining
  induction remaining with
  | zero => intro attempt; simp [fetch_data_go]
  | succ n ih =>
    intro attempt
    simp only [fetch_data_go]
    cases resp attempt with
    | ok p => exact Nat.succ_le_succ (Nat.zero_le n)
    | throttled ra => exact Nat.succ_le_succ (ih _)
    | failStatus s => exact Nat.succ_le_succ (ih _)
    | netError => exact Nat.succ_le_succ (ih _)

theorem fetch_data_go_all_fail {α : Type} (resp : Nat → HttpResp α)
    (h : ∀ n p, resp n ≠ HttpResp.ok p) :
    ∀ remaining attempt, (fetch_data_go resp attempt remaining).result = none := by
  intro remaining
  induction remaining with
  | zero => intro attempt; rfl
  | succ n ih =>
    intro attempt
    simp only [fetch_data_go]
    cases hr : resp attempt with
    | ok p => exact absurd hr (h _ _)
    | throttled ra => exact ih _
    | failStatus s => exact ih _
    | netError => exact ih _

theorem fetch_player_summaries_go_throttled {V : Type} (resp : Nat → SteamResp V)
    (h : ∀ n, resp n = SteamResp.throttled) :
    ∀ fuel k backoff, (fetch_player_summaries_go resp k backoff fuel).1 = none := by
  intro fuel
  induction fuel with
  | zero => intro k backoff; rfl
  | succ n ih =>
    intro k backoff
    simp only [fetch_player_summaries_go, h k]
    exact ih _ _

/-! ## Claim theorems -/

/-- Claim C1, counterexample: with first response 429 carrying Retry-After=2
and second response 200 with payload 7, `fetch_data` sleeps `[2, 1]` — the
Retry-After wait *followed by the exponential-backoff wait 2 ^ 0 = 1* — for
a total wait of 3 seconds, and the throttled attempt counted toward the
retry bound (2 attempts used). The claim that the 429 attempt incurs no
exponential-backoff delay is false. -/
theorem throttle_backoff_counterexample :
    fetch_data (throttle_then_ok (some 2) 7) 3 = ⟨some 7, [2, 1], 2⟩ ∧
    (fetch_data (throttle_then_ok (some 2) 7) 3).sleeps ≠ [2] ∧
    (fetch_data (throttle_then_ok (some 2) 7) 3).sleeps.sum = 3 := by
  exact ⟨rfl, by decide, rfl⟩

/-- Claim C1 (amended): on a 429 response, `fetch_data` sleeps the
server-suggested Retry-After duration (defaulting to 10 when the header is
absent) and then *additionally* sleeps the exponential-backoff delay
`2 ^ attempt`; the throttled attempt counts toward the retry bound and
escalates the backoff schedule. With first response 429 Retry-After=`ra`
and second response 200 with payload `p`, fetch returns `p` after sleeping
`[ra, 1]` (total wait `ra + 1`). -/
theorem fetch_data_throttled_behavior {α : Type} (ra : Nat) (p : α)
    (resp : Nat → HttpResp α) (k remaining : Nat)
    (hk : resp k = HttpResp.throttled (some ra)) :
    (fetch_data_go resp k (remaining + 1)).sleeps =
      ra :: 2 ^ k :: (fetch_data_go resp (k + 1) remaining).sleeps ∧
    (fetch_data_go resp k (remaining + 1)).attempts =
      (fetch_data_go resp (k + 1) remaining).attempts + 1 ∧
    fetch_data (throttle_then_ok (some ra) p) 3 = ⟨some p, [ra, 1], 2⟩ ∧
    fetch_data (throttle_then_ok none p) 3 = ⟨some p, [10, 1], 2⟩ := by
  refine ⟨?_, ?_, ?_, ?_⟩ <;>
    simp [fetch_data, fetch_data_go, throttle_then_ok, retry_after_value, hk]

theorem fetch_data_throttled_behavior_witness :
    (fetch_data_go (throttle_then_ok (some 2) (7 : Nat)) 0 (2 + 1)).sleeps =
      2 :: 2 ^ 0 :: (fetch_data_go (throttle_then_ok (some 2) (7 : Nat)) (0 + 1) 2).sleeps ∧
    (fetch_data_go (throttle_then_ok (some 2) (7 : Nat)) 0 (2 + 1)).attempts =
      (fetch_data_go (throttle_then_ok (some 2) (7 : Nat)) (0 + 1) 2).attempts + 1 ∧
    fetch_data (throttle_then_ok (some 2) (7 : Nat)) 3 = ⟨some 7, [2, 1], 2⟩ ∧
    fetch_data (throttle_then_ok none (7 : Nat)) 3 = ⟨some 7, [10, 1], 2⟩ :=
  fetch_data_throttled_behavior 2 7 (throttle_then_ok (some 2) 7) 0 2 rfl

/-- Claim C2, evaluation at the failing schedule: 61 `fetch_data` calls
started concurrently at time 0 each pass `request_queue.put` with zero
wait (the queue is unbounded) and issue their first HTTP request
immediately, so all 61 requests fall inside the rolling window `[0, 60)` —
exceeding `RATE_LIMIT = 60`. Nothing in `fetch_data` waits for admission
from `rate_limit_check`, so the cap the spec describes is not enforced. -/
theorem rate_limiter_window_exceeded :
    concurrent_first_request_times 61 0 = List.replicate 61 0 ∧
    requests_in_window (concurrent_first_request_times 61 0) 0 60 = 61 ∧
    RATE_LIMIT < 61 := by
  refine ⟨?_, ?_, by decide⟩ <;> decide

/-- Claim C4, counterexample: `load_playtime_data` on an existing file whose
contents fail to parse raises `json.JSONDecodeError` to the caller instead
of returning the empty record. -/
theorem load_playtime_corrupt_raises :
    load_playtime_data FileState.corrupt = Except.error PyErr.jsonDecodeError ∧
    load_playtime_data FileState.corrupt ≠ Except.ok { sessions := [], total := 0 } := by
  refine ⟨rfl, ?_⟩
  intro h
  exact Except.noConfusion h

/-- Claim C4 (amended): `load_cache` returns the empty record and raises no
exception when the file is missing, unreadable, or fails to parse; but
`load_playtime_data` returns its default record only when the file is
missing, and propagates `OSError` / `JSONDecodeError` when an existing
file is unreadable or fails to parse. -/
theorem load_empty_on_missing_or_corrupt {α : Type} (empty v : α) :
    (∀ fs : FileState α, ∃ r, load_cache empty fs = Except.ok r) ∧
    load_cache empty FileState.missing = Except.ok empty ∧
    load_cache empty FileState.unreadable = Except.ok empty ∧
    load_cache empty FileState.corrupt = Except.ok empty ∧
    load_cache empty (FileState.valid v) = Except.ok v ∧
    load_playtime_data FileState.missing = Except.ok { sessions := [], total := 0 } ∧
    load_playtime_data FileState.unreadable = Except.error PyErr.osError ∧
    load_playtime_data FileState.corrupt = Except.error PyErr.jsonDecodeError := by
  refine ⟨fun fs => ?_, rfl, rfl, rfl, rfl, rfl, rfl, rfl⟩
  cases fs <;> exact ⟨_, rfl⟩

/-- Claim C3: the match store is an at-most-once-fetch-per-id cache.
After `save_match_data` processes a response containing match `id`, the
existence check for `id` is true; when the file for `id` already exists,
`save_match_data` performs no further write for it (its file count is
unchanged); when the match-data file exists, `get_last_match_data` issues
no fetch and leaves the store unchanged; and a second refresh cycle for an
unchanged latest match id after a successful first cycle issues zero
additional match-detail fetches. -/
theorem match_cache_at_most_once {α : Type} (store : MatchStore α)
    (ms : List (Nat × α)) (id : Nat) (network : Nat → Option α) (d : α) :
    (id ∈ ms.map Prod.fst → file_exists (save_match_data store ms).1 id = true) ∧
    (file_exists store id = true →
      List.countP (fun e => decide (e.1 = id)) (save_match_data store ms).1 =
        List.countP (fun e => decide (e.1 = id)) store) ∧
    (file_exists store id = true →
      get_last_match_data store id network = (store, match_file_lookup store id, 0)) ∧
    (network id = some d →
      (get_last_match_data (get_last_match_data store id network).1 id network).2.2 = 0) := by
  refine ⟨fun h => save_match_data_go_exists_of_mem ms store 0 id h,
          fun h => save_match_data_go_count_of_exists ms store 0 id h, ?_, ?_⟩
  · intro h
    unfold get_last_match_data
    cases hl : match_file_lookup store id with
    | some d0 => simp
    | none => unfold file_exists at h; rw [hl] at h; simp at h
  · intro h
    unfold get_last_match_data
    cases hl : match_file_lookup store id with
    | some d0 => simp [hl]
    | none => simp [hl, h, match_file_lookup_append_single_none store id d hl]

theorem match_cache_at_most_once_witness :
    (file_exists (save_match_data ([] : MatchStore Nat) [(5, 77)]).1 5 = true) ∧
    (List.countP (fun e => decide (e.1 = 5)) (save_match_data [(5, 77)] [(5, 88)]).1 =
      List.countP (fun e => decide (e.1 = 5)) ([(5, 77)] : MatchStore Nat)) ∧
    (get_last_match_data ([(5, 77)] : MatchStore Nat) 5 (fun _ => some 99) =
      ([(5, 77)], match_file_lookup [(5, 77)] 5, 0)) ∧
    ((get_last_match_data (get_last_match_data ([] : MatchStore Nat) 5
        (fun _ => some 99)).1 5 (fun _ => some 99)).2.2 = 0) :=
  ⟨(match_cache_at_most_once [] [(5, 77)] 5 (fun _ => some 99) 99).1 (by decide),
   (match_cache_at_most_once [(5, 77)] [(5, 88)] 5 (fun _ => some 99) 99).2.1 (by decide),
   (match_cache_at_most_once [(5, 77)] [] 5 (fun _ => some 99) 99).2.2.1 (by decide),
   (match_cache_at_most_once [] [] 5 (fun _ => some 99) 99).2.2.2 rfl⟩

/-- Claim C7: the record saved by `cache_player_data` after both fetches
succeed maps every key of the fetched field set — the profile fields `p`
together with the `"win_loss"` field `w` — to its newly fetched value, and
every other key to its old value from the existing record `r`; untouched
fields persist across refreshes. -/
theorem player_merge_policy {V : Type} (r p : List (String × V)) (w : V)
    (k : String) (hnd : (dictKeys p).Nodup) :
    dictGet k (cache_player_data r (some p) (some w)) =
      match dictGet k (dictInsert "win_loss" w p) with
      | some v => some v
      | none => dictGet k r := by
  show dictGet k (dictInsert "win_loss" w (dictUpdate r p)) = _
  rw [dictGet_dictInsert, dictGet_dictInsert]
  by_cases hw : "win_loss" = k
  · simp [hw]
  · simp only [if_neg hw]
    exact dictGet_dictUpdate r p k hnd

theorem player_merge_policy_witness :
    (dictKeys [("b", 3), ("c", 4)]).Nodup ∧
    dictGet "b" (cache_player_data [("a", 1), ("b", 2)]
        (some [("b", 3), ("c", 4)]) (some 9)) =
      match dictGet "b" (dictInsert "win_loss" 9 [("b", 3), ("c", 4)]) with
      | some v => some v
      | none => dictGet "b" ([("a", 1), ("b", 2)] : List (String × Nat)) :=
  ⟨by decide, player_merge_policy [("a", 1), ("b", 2)] [("b", 3), ("c", 4)] 9 "b" (by decide)⟩

/-- Claim C8, counterexample: under sustained 429 throttling,
`fetch_player_summaries` has still returned nothing after 6 attempts — more
than the claimed 3-5 attempt bound — and is still sleeping its capped
doubling backoff (5, 10, 20, 40, 60, 60 seconds); its `while True` loop
retries 429 indefinitely. -/
theorem summaries_unbounded_retry_counterexample :
    fetch_player_summaries (fun _ => SteamResp.throttled (V := Nat)) 6 =
      (none, [5, 10, 20, 40, 60, 60]) := by
  decide

/-- Claim C8 (amended): `fetch_data` makes at most `retries` (= 3 at every
call site) attempts and returns `None` — not an exception — when every
attempt fails; `fetch_player_summaries` returns `[]` without retrying on a
non-200/non-429 status or a raised exception, but under sustained 429
throttling it never returns within any number of attempts. -/
theorem fetch_retry_bounds {α V : Type} (resp : Nat → HttpResp α)
    (sresp : Nat → SteamResp V) (retries : Nat)
    (hfail : ∀ n p, resp n ≠ HttpResp.ok p)
    (hthr : ∀ n, sresp n = SteamResp.throttled) :
    (fetch_data resp retries).attempts ≤ retries ∧
    (fetch_data resp retries).result = none ∧
    (∀ fuel, (fetch_player_summaries sresp fuel).1 = none) ∧
    (fetch_player_summaries (fun _ => SteamResp.errStatus (V := V) 500) 1).1 = some [] := by
  refine ⟨fetch_data_go_attempts_le resp retries 0,
          fetch_data_go_all_fail resp hfail retries 0,
          fun fuel => fetch_player_summaries_go_throttled sresp hthr fuel 0 5, rfl⟩

theorem fetch_retry_bounds_witness :
    ((fetch_data (fun _ => HttpResp.netError (α := Nat)) 3).attempts ≤ 3) ∧
    ((fetch_data (fun _ => HttpResp.netError (α := Nat)) 3).result = none) ∧
    ((fetch_player_summaries (fun _ => SteamResp.throttled (V := Nat)) 9).1 = none) ∧
    (fetch_player_summaries (fun _ => SteamResp.errStatus (V := Nat) 500) 1).1 = some [] :=
  ⟨(fetch_retry_bounds (α := Nat) (V := Nat) (fun _ => HttpResp.netError)
      (fun _ => SteamResp.throttled) 3
      (fun _ _ h => HttpResp.noConfusion h) (fun _ => rfl)).1,
   (fetch_retry_bounds (α := Nat) (V := Nat) (fun _ => HttpResp.netError)
      (fun _ => SteamResp.throttled) 3
      (fun _ _ h => HttpResp.noConfusion h) (fun _ => rfl)).2.1,
   (fetch_retry_bounds (α := Nat) (V := Nat) (fun _ => HttpResp.netError)
      (fun _ => SteamResp.throttled) 3
      (fun _ _ h => HttpResp.noConfusion h) (fun _ => rfl)).2.2.1 9,
   (fetch_retry_bounds (α := Nat) (V := Nat) (fun _ => HttpResp.netError)
      (fun _ => SteamResp.throttled) 3
      (fun _ _ h => HttpResp.noConfusion h) (fun _ => rfl)).2.2.2⟩

/-- Claim C5, counterexample: the first-ever presence poll that reports the
target activity *does* open a session — `active_players` has no entry, so
the opening branch runs, appends `{"start": now}` to the sessions and
records the start time — and a later transition away closes that session.
The claim that a first-ever poll reporting the target activity opens
nothing is false. -/
theorem first_poll_opens_session_counterexample :
    (track_step initial_track_state (some "Dota 2") 100).record.sessions =
      [{ start := 100, stop := none, dur := none }] ∧
    (track_step initial_track_state (some "Dota 2") 100).active = some 100 ∧
    (closed_sessions (run_tracker [(some "Dota 2", 100), (none, 160)]).record).length = 1 := by
  refine ⟨rfl, rfl, ?_⟩
  decide

/-- Claim C5 (amended): a first-ever poll that does not report the target
activity records nothing (the baseline stays empty); but a first-ever poll
that reports the target activity opens a session whose start is that poll
time, and a later transition away closes exactly that session with end
timestamp equal to the later poll time. -/
theorem first_poll_behavior (g : Option String) (t1 t2 : Int)
    (hg : g ≠ some "Dota 2") :
    track_step initial_track_state g t1 = initial_track_state ∧
    (track_step initial_track_state (some "Dota 2") t1).record.sessions =
      [{ start := t1, stop := none, dur := none }] ∧
    (track_step (track_step initial_track_state (some "Dota 2") t1) g t2).record.sessions =
      [{ start := t1, stop := some t2, dur := some (duration_breakdown (t2 - t1)) }] := by
  refine ⟨?_, ?_, ?_⟩ <;>
    simp [track_step, initial_track_state, hg, set_last_session]

theorem first_poll_behavior_witness :
    (none : Option String) ≠ some "Dota 2" ∧
    (track_step initial_track_state none 100 = initial_track_state ∧
     (track_step initial_track_state (some "Dota 2") 100).record.sessions =
       [{ start := 100, stop := none, dur := none }] ∧
     (track_step (track_step initial_track_state (some "Dota 2") 100) none 160).record.sessions =
       [{ start := 100, stop := some 160, dur := some (duration_breakdown (160 - 100)) }]) :=
  ⟨by decide, first_poll_behavior none 100 160 (by decide)⟩

/-- Claim C6, counterexample: on the poll sequence `[absent, X, X, Y,
absent]` with `X` the target activity ("Dota 2") and `Y` another activity
("Artifact") at times 0, 60, 120, 180, 240, the tracker produces exactly
*one* closed session, not two: the `Y` run opens nothing (only the target
activity is tracked), and the closed session runs from 60 to 180 — its end
is the time of the poll that observed the change, not the
last-seen-before-change time 120. -/
theorem session_sequence_counterexample :
    closed_sessions (run_tracker [(none, 0), (some "Dota 2", 60), (some "Dota 2", 120),
        (some "Artifact", 180), (none, 240)]).record =
      [{ start := 60, stop := some 180, dur := some (0, 2, 0) }] ∧
    (closed_sessions (run_tracker [(none, 0), (some "Dota 2", 60), (some "Dota 2", 120),
        (some "Artifact", 180), (none, 240)]).record).length ≠ 2 := by
  constructor <;> decide

/-- Claim C6 (amended): on polls `[absent, target, target, y, absent]` with
`y` not the target activity, the tracker opens nothing on the initial
absent reading, produces exactly one closed session — for the target run
only, since only the target activity is tracked — whose start is the first
poll time reporting the target and whose end is the time of the poll that
first reported a different state, and the `y` run opens no session. -/
theorem session_sequence_behavior (t0 t1 t2 t3 t4 : Int) (y : String)
    (hy : y ≠ "Dota 2") :
    (run_tracker [(none, t0), (some "Dota 2", t1), (some "Dota 2", t2),
        (some y, t3), (none, t4)]).record.sessions =
      [{ start := t1, stop := some t3, dur := some (duration_breakdown (t3 - t1)) }] ∧
    (closed_sessions (run_tracker [(none, t0), (some "Dota 2", t1), (some "Dota 2", t2),
        (some y, t3), (none, t4)]).record).length = 1 ∧
    (run_tracker [(none, t0), (some "Dota 2", t1), (some "Dota 2", t2),
        (some y, t3), (none, t4)]).active = none := by
  refine ⟨?_, ?_, ?_⟩ <;>
    simp [run_tracker, track_step, initial_track_state, hy, set_last_session,
      closed_sessions]

theorem session_sequence_behavior_witness :
    "Artifact" ≠ "Dota 2" ∧
    ((run_tracker [(none, 0), (some "Dota 2", 60), (some "Dota 2", 120),
        (some "Artifact", 180), (none, 240)]).record.sessions =
      [{ start := 60, stop := some 180, dur := some (duration_breakdown (180 - 60)) }] ∧
     (closed_sessions (run_tracker [(none, 0), (some "Dota 2", 60), (some "Dota 2", 120),
        (some "Artifact", 180), (none, 240)]).record).length = 1 ∧
     (run_tracker [(none, 0), (some "Dota 2", 60), (some "Dota 2", 120),
        (some "Artifact", 180), (none, 240)]).active = none) :=
  ⟨by decide, session_sequence_behavior 0 60 120 180 240 "Artifact" (by decide)⟩

/-- Claim C9: the per-player total reported by `send_daily_report` equals
the sum of the durations (end minus start) of the closed sessions whose
start lies within the trailing 30-day retention window, and it is
recomputed from the stored sessions at report time — it does not depend on
the incrementally maintained `"total"` field of the record. -/
theorem report_total_recomputed (sessions : List SessionRec) (t t' : ℚ) (now : Int) :
    report_total_seconds { sessions := sessions, total := t } now =
      closed_window_duration_sum sessions now ∧
    report_total_seconds { sessions := sessions, total := t } now =
      report_total_seconds { sessions := sessions, total := t' } now := by
  refine ⟨?_, rfl⟩
  induction sessions with
  | nil => rfl
  | cons s rest ih =>
    unfold report_total_seconds report_sessions at ih ⊢
    rw [List.filter_cons]
    simp only [closed_window_duration_sum]
    by_cases hs : now - thirty_days ≤ s.start
    · rw [if_pos (decide_eq_true hs), List.filterMap_cons]
      cases hstop : s.stop with
      | none =>
        simp only [hstop, Option.map_none']
        rw [ih]
        omega
      | some e =>
        simp only [hstop, Option.map_some']
        rw [List.sum_cons, ih, if_pos hs]
    · rw [if_neg (by simp only [decide_eq_true_eq]; exact hs)]
      cases hstop : s.stop with
      | none =>
        simp only [hstop]
        rw [ih]
        omega
      | some e =>
        simp only [hstop]
        rw [if_neg hs, ih]
        omega

/-- Claim C10: the Steam64-to-account-id and account-id-to-Steam64
conversions are mutual inverses via the fixed offset 76561197960265728. -/
theorem steam_id_conversions_inverse :
    (∀ s : Int, account_id_to_steam_id (steam_id_to_account_id s) = s) ∧
    (∀ a : Int, steam_id_to_account_id (account_id_to_steam_id a) = a) := by
  constructor <;> intro x <;>
    simp only [account_id_to_steam_id, steam_id_to_account_id] <;> omega

end Dota
